import Mathlib

/-!
Verification of the rustine-dbal database abstraction layer.

This file gives a shallow embedding of the parts of the code that the
checked properties talk about:

* the `SqlValue` value model (`src/core/sql_value.rs`),
* the `Platform` dialect abstraction with its three implementations
  (`src/platform/platform.rs`),
* the `Expr` expression tree and the `QueryBuilder` SQL compiler
  (`src/query/expr.rs`, `src/query/builder.rs`),
* the transactional `Connection` state machine
  (`src/connection/connection.rs`), modelled as explicit state passing
  where each executor call is parametrised by its success, and

* the SQLite column-row parser of the `SchemaManager`
  (`src/schema/manager.rs`).

Feature-gated `SqlValue` variants (chrono dates, uuid, json, decimal) are
omitted; no checked property mentions them.
-/

/-- The double-quote character, written via its code point. -/
def dquoteChar : Char := Char.ofNat 34

/-- The backtick character, written via its code point. -/
def bquoteChar : Char := Char.ofNat 96

/-- The single-quote character, written via its code point. -/
def squoteChar : Char := Char.ofNat 39

/-- Rust `str::replace(q, "qq")` for a single-character pattern `q`:
every occurrence of `q` is doubled. -/
def replaceDoubled (q : Char) (s : String) : String :=
  String.mk (s.data.flatMap (fun c => if c = q then [q, q] else [c]))

/-- `SqlValue` from `src/core/sql_value.rs` (feature-gated variants
omitted).  Sized machine integers are modelled as `Int`, unsigned ones as
`Nat`, bytes as `List Nat`. -/
inductive SqlValue where
  | null
  | bool (b : Bool)
  | i8 (v : Int)
  | i16 (v : Int)
  | i32 (v : Int)
  | i64 (v : Int)
  | u32 (v : Nat)
  | u64 (v : Nat)
  | f32 (v : Float)
  | f64 (v : Float)
  | string (s : String)
  | bytes (b : List Nat)

/-- One byte as two lowercase hex digits, as in the `hex_encode` helper of
`src/core/sql_value.rs`. -/
def hexByte (b : Nat) : String :=
  String.mk [Nat.digitChar (b / 16 % 16), Nat.digitChar (b % 16)]

/-- The `Display` implementation of `SqlValue`
(`src/core/sql_value.rs`): numbers and booleans unquoted, strings
single-quoted with embedded single quotes doubled, bytes hex-encoded. -/
def SqlValue.display : SqlValue → String
  | .null => "NULL"
  | .bool b => toString b
  | .i8 v => toString v
  | .i16 v => toString v
  | .i32 v => toString v
  | .i64 v => toString v
  | .u32 v => toString v
  | .u64 v => toString v
  | .f32 v => toString v
  | .f64 v => toString v
  | .string s =>
      String.singleton squoteChar ++ replaceDoubled squoteChar s ++ String.singleton squoteChar
  | .bytes b => "0x" ++ String.join (b.map hexByte)

/-- The three platform implementations of `src/platform/platform.rs`. -/
inductive DbPlatform where
  | postgres
  | mysql
  | sqlite
deriving DecidableEq

/-- `Platform::name` for each implementation. -/
def DbPlatform.name : DbPlatform → String
  | .postgres => "postgresql"
  | .mysql => "mysql"
  | .sqlite => "sqlite"

/-- `quote_identifier_char`: double quote for PostgreSQL and SQLite,
backtick for MySQL. -/
def DbPlatform.quote_identifier_char : DbPlatform → Char
  | .postgres => dquoteChar
  | .mysql => bquoteChar
  | .sqlite => dquoteChar

/-- `supports_returning`: trait default is `false`; PostgreSQL and SQLite
override it to `true`. -/
def DbPlatform.supports_returning : DbPlatform → Bool
  | .postgres => true
  | .mysql => false
  | .sqlite => true

/-- `Platform::quote_identifier` (trait default, not overridden by any of
the three platforms): surround with the quote character, doubling embedded
occurrences of it. -/
def DbPlatform.quote_identifier (p : DbPlatform) (identifier : String) : String :=
  let q := p.quote_identifier_char
  String.singleton q ++ replaceDoubled q identifier ++ String.singleton q

/-- `Platform::quote_string` (trait default): single-quote, doubling
embedded single quotes. -/
def DbPlatform.quote_string (_p : DbPlatform) (value : String) : String :=
  String.singleton squoteChar ++ replaceDoubled squoteChar value ++ String.singleton squoteChar

/-- `Platform::limit_offset_sql` (trait default). -/
def DbPlatform.limit_offset_sql (_p : DbPlatform) (limit offset : Option Nat) : String :=
  (match limit with
   | some l => " LIMIT " ++ toString l
   | none => "") ++
  (match offset with
   | some o => " OFFSET " ++ toString o
   | none => "")

/-- `create_savepoint_sql` (trait default, no platform overrides it). -/
def DbPlatform.create_savepoint_sql (p : DbPlatform) (name : String) : String :=
  "SAVEPOINT " ++ p.quote_identifier name

/-- `release_savepoint_sql`: trait default `RELEASE SAVEPOINT <quoted>`;
SQLite overrides it to `RELEASE <quoted>` (no SAVEPOINT keyword). -/
def DbPlatform.release_savepoint_sql (p : DbPlatform) (name : String) : String :=
  match p with
  | .sqlite => "RELEASE " ++ p.quote_identifier name
  | _ => "RELEASE SAVEPOINT " ++ p.quote_identifier name

/-- `rollback_savepoint_sql` (trait default, no platform overrides it). -/
def DbPlatform.rollback_savepoint_sql (p : DbPlatform) (name : String) : String :=
  "ROLLBACK TO SAVEPOINT " ++ p.quote_identifier name

/-- Comparison operators of `src/query/expr.rs`. -/
inductive ComparisonOp where
  | eqOp
  | neOp
  | ltOp
  | leOp
  | gtOp
  | geOp
deriving DecidableEq

/-- `ComparisonOp::as_sql`. -/
def ComparisonOp.as_sql : ComparisonOp → String
  | .eqOp => "="
  | .neOp => "<>"
  | .ltOp => "<"
  | .leOp => "<="
  | .gtOp => ">"
  | .geOp => ">="

/-- The expression tree `Expr` of `src/query/expr.rs`. -/
inductive Expr where
  | Column (name : String)
  | Value (v : SqlValue)
  | Param (name : String)
  | Comparison (left : Expr) (op : ComparisonOp) (right : Expr)
  | And (es : List Expr)
  | Or (es : List Expr)
  | Not (e : Expr)
  | IsNull (e : Expr)
  | IsNotNull (e : Expr)
  | In (e : Expr) (vs : List Expr)
  | NotIn (e : Expr) (vs : List Expr)
  | Between (e low high : Expr)
  | Like (e : Expr) (pat : String)
  | Raw (sql : String)

/-- `Expr::col`. -/
def Expr.col (name : String) : Expr := .Column name

/-- `Expr::val`. -/
def Expr.val (v : SqlValue) : Expr := .Value v

/-- `Expr::eq`. -/
def Expr.eq (self other : Expr) : Expr := .Comparison self .eqOp other

/-- `Expr::is_null`. -/
def Expr.is_null (self : Expr) : Expr := .IsNull self

/-- `Expr::is_not_null`. -/
def Expr.is_not_null (self : Expr) : Expr := .IsNotNull self

/-- `Expr::in_list`. -/
def Expr.in_list (self : Expr) (values : List Expr) : Expr := .In self values

/-- `Expr::like`. -/
def Expr.like (self : Expr) (pat : String) : Expr := .Like self pat

/-- `Expr::and`: flattens into an existing n-ary `And` node. -/
def Expr.and (self other : Expr) : Expr :=
  match self with
  | .And es => .And (es ++ [other])
  | _ => .And [self, other]

/-- `Expr::or`: flattens into an existing n-ary `Or` node. -/
def Expr.or (self other : Expr) : Expr :=
  match self with
  | .Or es => .Or (es ++ [other])
  | _ => .Or [self, other]

mutual
/-- `QueryBuilder::expr_to_sql` from `src/query/builder.rs`: direct
recursive descent over the expression tree. -/
def exprToSql (p : DbPlatform) : Expr → String
  | .Column name => p.quote_identifier name
  | .Value v => v.display
  | .Param name => name
  | .Comparison left op right =>
      exprToSql p left ++ " " ++ op.as_sql ++ " " ++ exprToSql p right
  | .And es => "(" ++ String.intercalate " AND " (exprListToSql p es) ++ ")"
  | .Or es => "(" ++ String.intercalate " OR " (exprListToSql p es) ++ ")"
  | .Not e => "NOT (" ++ exprToSql p e ++ ")"
  | .IsNull e => exprToSql p e ++ " IS NULL"
  | .IsNotNull e => exprToSql p e ++ " IS NOT NULL"
  | .In e vs => exprToSql p e ++ " IN (" ++ String.intercalate ", " (exprListToSql p vs) ++ ")"
  | .NotIn e vs =>
      exprToSql p e ++ " NOT IN (" ++ String.intercalate ", " (exprListToSql p vs) ++ ")"
  | .Between e low high =>
      exprToSql p e ++ " BETWEEN " ++ exprToSql p low ++ " AND " ++ exprToSql p high
  | .Like e pat => exprToSql p e ++ " LIKE " ++ p.quote_string pat
  | .Raw sql => sql

/-- Maps `exprToSql` over a list of subexpressions. -/
def exprListToSql (p : DbPlatform) : List Expr → List String
  | [] => []
  | e :: es => exprToSql p e :: exprListToSql p es
end

/-- Query kinds from `src/query/builder.rs`. -/
inductive QueryType where
  | Select
  | Insert
  | Update
  | Delete
deriving DecidableEq

/-- Join kinds from `src/query/builder.rs`. -/
inductive JoinType where
  | Inner
  | Left
  | Right
  | Full
  | Cross
deriving DecidableEq

/-- `JoinType::as_sql`. -/
def JoinType.as_sql : JoinType → String
  | .Inner => "INNER JOIN"
  | .Left => "LEFT JOIN"
  | .Right => "RIGHT JOIN"
  | .Full => "FULL JOIN"
  | .Cross => "CROSS JOIN"

/-- ORDER BY direction from `src/query/builder.rs`. -/
inductive OrderDirection where
  | Asc
  | Desc
deriving DecidableEq

/-- `OrderDirection::as_sql`. -/
def OrderDirection.as_sql : OrderDirection → String
  | .Asc => "ASC"
  | .Desc => "DESC"

/-- A JOIN clause (struct `Join`); the `alias` field is primed because
`alias` is a reserved word here. -/
structure Join where
  kind : JoinType
  table : String
  alias' : Option String
  condition : Expr

/-- An ORDER BY clause (struct `OrderBy`). -/
structure OrderBy where
  column : String
  direction : OrderDirection

/-- The `QueryBuilder` state (all fields of the Rust struct). -/
structure QueryBuilder where
  query_type : QueryType
  table : String
  table_alias : Option String
  columns : List String
  values : List (List SqlValue)
  set_values : List (String × SqlValue)
  where_expr : Option Expr
  joins : List Join
  group_by : List String
  having : Option Expr
  order_by : List OrderBy
  limit : Option Nat
  offset : Option Nat
  distinct : Bool
  returning : List String

/-- `QueryBuilder::select`: fresh builder with every field empty. -/
def QueryBuilder.select : QueryBuilder where
  query_type := .Select
  table := ""
  table_alias := none
  columns := []
  values := []
  set_values := []
  where_expr := none
  joins := []
  group_by := []
  having := none
  order_by := []
  limit := none
  offset := none
  distinct := false
  returning := []

/-- `QueryBuilder::insert`. -/
def QueryBuilder.insert : QueryBuilder :=
  { QueryBuilder.select with query_type := .Insert }

/-- `QueryBuilder::update`. -/
def QueryBuilder.update : QueryBuilder :=
  { QueryBuilder.select with query_type := .Update }

/-- `QueryBuilder::delete`. -/
def QueryBuilder.delete : QueryBuilder :=
  { QueryBuilder.select with query_type := .Delete }

/-- `QueryBuilder::columns` (named with a prime because the field of the
same name exists): appends to the selected columns. -/
def QueryBuilder.columns' (self : QueryBuilder) (cols : List String) : QueryBuilder :=
  { self with columns := self.columns ++ cols }

/-- `QueryBuilder::from` (named `fromTable` because `from` is a Lean
keyword): sets the table. -/
def QueryBuilder.fromTable (self : QueryBuilder) (table : String) : QueryBuilder :=
  { self with table := table }

/-- `QueryBuilder::into`: sets the table for INSERT. -/
def QueryBuilder.into (self : QueryBuilder) (table : String) : QueryBuilder :=
  { self with table := table }

/-- `QueryBuilder::where_expr` method (primed, the field exists): ANDs
onto an existing WHERE expression. -/
def QueryBuilder.where_expr' (self : QueryBuilder) (e : Expr) : QueryBuilder :=
  { self with
    where_expr :=
      some (match self.where_expr with
            | some existing => existing.and e
            | none => e) }

/-- `QueryBuilder::where_eq`: WHERE column = value. -/
def QueryBuilder.where_eq (self : QueryBuilder) (column : String) (value : SqlValue) :
    QueryBuilder :=
  self.where_expr' ((Expr.col column).eq (Expr.val value))

/-- `QueryBuilder::insert_columns`: replaces the column list. -/
def QueryBuilder.insert_columns (self : QueryBuilder) (cols : List String) : QueryBuilder :=
  { self with columns := cols }

/-- `QueryBuilder::values` method (primed, the field exists): pushes one
row of INSERT values. -/
def QueryBuilder.values' (self : QueryBuilder) (row : List SqlValue) : QueryBuilder :=
  { self with values := self.values ++ [row] }

/-- `QueryBuilder::values_batch`: appends several rows. -/
def QueryBuilder.values_batch (self : QueryBuilder) (rows : List (List SqlValue)) :
    QueryBuilder :=
  { self with values := self.values ++ rows }

/-- `QueryBuilder::returning` method (primed, the field exists): appends
RETURNING columns. -/
def QueryBuilder.returning' (self : QueryBuilder) (cols : List String) : QueryBuilder :=
  { self with returning := self.returning ++ cols }

/-- `QueryBuilder::build_select`. -/
def QueryBuilder.build_select (self : QueryBuilder) (p : DbPlatform) : String :=
  let sql := "SELECT " ++ (if self.distinct then "DISTINCT " else "")
  let sql := sql ++
    (if self.columns.isEmpty then "*"
     else String.intercalate ", "
       (self.columns.map (fun c => if c = "*" then c else p.quote_identifier c)))
  let sql := sql ++ " FROM " ++ p.quote_identifier self.table ++
    (match self.table_alias with
     | some a => " AS " ++ p.quote_identifier a
     | none => "")
  let sql := sql ++ String.join (self.joins.map (fun j =>
    " " ++ j.kind.as_sql ++ " " ++ p.quote_identifier j.table ++
    (match j.alias' with
     | some a => " AS " ++ p.quote_identifier a
     | none => "") ++
    " ON " ++ exprToSql p j.condition))
  let sql := sql ++
    (match self.where_expr with
     | some w => " WHERE " ++ exprToSql p w
     | none => "")
  let sql := sql ++
    (if self.group_by.isEmpty then ""
     else " GROUP BY " ++ String.intercalate ", " (self.group_by.map p.quote_identifier))
  let sql := sql ++
    (match self.having with
     | some h => " HAVING " ++ exprToSql p h
     | none => "")
  let sql := sql ++
    (if self.order_by.isEmpty then ""
     else " ORDER BY " ++ String.intercalate ", "
       (self.order_by.map (fun o => p.quote_identifier o.column ++ " " ++ o.direction.as_sql)))
  sql ++ p.limit_offset_sql self.limit self.offset

/-- The `RETURNING` suffix shared by INSERT/UPDATE/DELETE generation:
appended only when columns were given and the platform supports it. -/
def QueryBuilder.returningClause (self : QueryBuilder) (p : DbPlatform) : String :=
  if !self.returning.isEmpty && p.supports_returning then
    " RETURNING " ++ String.intercalate ", " (self.returning.map p.quote_identifier)
  else ""

/-- `QueryBuilder::build_insert`. -/
def QueryBuilder.build_insert (self : QueryBuilder) (p : DbPlatform) : String :=
  let sql := "INSERT INTO " ++ p.quote_identifier self.table
  let sql := sql ++
    (if self.columns.isEmpty then ""
     else " (" ++ String.intercalate ", " (self.columns.map p.quote_identifier) ++ ")")
  let sql := sql ++ " VALUES " ++ String.intercalate ", "
    (self.values.map (fun row =>
      "(" ++ String.intercalate ", " (row.map SqlValue.display) ++ ")"))
  sql ++ self.returningClause p

/-- `QueryBuilder::build_update`. -/
def QueryBuilder.build_update (self : QueryBuilder) (p : DbPlatform) : String :=
  let sql := "UPDATE " ++ p.quote_identifier self.table
  let sql := sql ++ " SET " ++ String.intercalate ", "
    (self.set_values.map (fun cv =>
      p.quote_identifier cv.1 ++ " = " ++ cv.2.display))
  let sql := sql ++
    (match self.where_expr with
     | some w => " WHERE " ++ exprToSql p w
     | none => "")
  sql ++ self.returningClause p

/-- `QueryBuilder::build_delete`. -/
def QueryBuilder.build_delete (self : QueryBuilder) (p : DbPlatform) : String :=
  let sql := "DELETE FROM " ++ p.quote_identifier self.table
  let sql := sql ++
    (match self.where_expr with
     | some w => " WHERE " ++ exprToSql p w
     | none => "")
  sql ++ self.returningClause p

/-- `QueryBuilder::to_sql`: dispatch on the query kind. -/
def QueryBuilder.to_sql (self : QueryBuilder) (p : DbPlatform) : String :=
  match self.query_type with
  | .Select => self.build_select p
  | .Insert => self.build_insert p
  | .Update => self.build_update p
  | .Delete => self.build_delete p

/-- Transaction isolation levels (`src/core/config.rs`). -/
inductive IsolationLevel where
  | ReadUncommitted
  | ReadCommitted
  | RepeatableRead
  | Serializable
deriving DecidableEq

/-- The mutable state of `Connection` (`src/connection/connection.rs`):
the atomic `nesting_level`, `rollback_only` and `closed` fields plus the
isolation level. -/
structure ConnState where
  nesting_level : Nat
  rollback_only : Bool
  isolation_level : IsolationLevel
  closed : Bool
deriving DecidableEq

/-- The state of a freshly constructed connection (`Connection::new`). -/
def ConnState.init : ConnState where
  nesting_level := 0
  rollback_only := false
  isolation_level := .ReadCommitted
  closed := false

/-- The error kinds the transaction engine can return, by the
`Error`/`TransactionError`/`ConnectionError` variants it uses. -/
inductive DbError where
  | connectionClosed
  | noActiveTransaction
  | rollbackOnlyErr
  | commitFailed
  | rollbackFailed
  | driverErr
deriving DecidableEq

/-- A call the connection makes on the underlying executor: the native
begin/commit/rollback entry points, or `execute` with a SQL string. -/
inductive ExecCmd where
  | beginTx
  | commitTx
  | rollbackTx
  | exec (sql : String)
deriving DecidableEq

/-- Result of one connection operation: the state afterwards, the
returned `Result`, and the executor calls that were issued. -/
structure OpOutcome where
  state : ConnState
  result : Except DbError Unit
  cmds : List ExecCmd

/-- `Connection::savepoint_name`: fixed prefix plus the depth number. -/
def savepoint_name (level : Nat) : String := "RUSTINE_" ++ toString level

/-- `Connection::begin_transaction`, with the success of the single
executor call it makes passed in as `execOk`.  At level 0 it issues the
native BEGIN; at level `n ≥ 1` it executes `SAVEPOINT RUSTINE_<n>`
(failure wrapped as a commit-failed transaction error).  The nesting
level is incremented only after the executor call succeeded. -/
def ConnState.begin_transaction (s : ConnState) (execOk : Bool) : OpOutcome :=
  if s.closed then ⟨s, .error .connectionClosed, []⟩
  else if s.nesting_level = 0 then
    if execOk then ⟨{ s with nesting_level := s.nesting_level + 1 }, .ok (), [.beginTx]⟩
    else ⟨s, .error .driverErr, [.beginTx]⟩
  else
    let sql := "SAVEPOINT " ++ savepoint_name s.nesting_level
    if execOk then ⟨{ s with nesting_level := s.nesting_level + 1 }, .ok (), [.exec sql]⟩
    else ⟨s, .error .commitFailed, [.exec sql]⟩

/-- Resets `rollback_only` when the nesting level has returned to 0, as
done at the end of `commit` and `rollback`. -/
def ConnState.resetFlagAtZero (s : ConnState) : ConnState :=
  if s.nesting_level = 0 then { s with rollback_only := false } else s

/-- `Connection::commit`: errors on closed / level 0 / rollback-only; at
level 1 issues the native COMMIT (failure propagated before the level is
touched); at level `n > 1` executes `RELEASE SAVEPOINT RUSTINE_<n-1>`
with any failure swallowed; then decrements and resets the flag at 0. -/
def ConnState.commit (s : ConnState) (execOk : Bool) : OpOutcome :=
  if s.closed then ⟨s, .error .connectionClosed, []⟩
  else if s.nesting_level = 0 then ⟨s, .error .noActiveTransaction, []⟩
  else if s.rollback_only then ⟨s, .error .rollbackOnlyErr, []⟩
  else if s.nesting_level = 1 then
    if execOk then
      ⟨({ s with nesting_level := s.nesting_level - 1 }).resetFlagAtZero, .ok (), [.commitTx]⟩
    else ⟨s, .error .driverErr, [.commitTx]⟩
  else
    let sql := "RELEASE SAVEPOINT " ++ savepoint_name (s.nesting_level - 1)
    ⟨({ s with nesting_level := s.nesting_level - 1 }).resetFlagAtZero, .ok (), [.exec sql]⟩

/-- `Connection::rollback`: errors on closed / level 0; at level 1 issues
the native ROLLBACK (failure propagated before the level is touched); at
level `n > 1` executes `ROLLBACK TO SAVEPOINT RUSTINE_<n-1>` (failure
wrapped as rollback-failed); then decrements and resets the flag at 0. -/
def ConnState.rollback (s : ConnState) (execOk : Bool) : OpOutcome :=
  if s.closed then ⟨s, .error .connectionClosed, []⟩
  else if s.nesting_level = 0 then ⟨s, .error .noActiveTransaction, []⟩
  else if s.nesting_level = 1 then
    if execOk then
      ⟨({ s with nesting_level := s.nesting_level - 1 }).resetFlagAtZero, .ok (), [.rollbackTx]⟩
    else ⟨s, .error .driverErr, [.rollbackTx]⟩
  else
    let sql := "ROLLBACK TO SAVEPOINT " ++ savepoint_name (s.nesting_level - 1)
    if execOk then
      ⟨({ s with nesting_level := s.nesting_level - 1 }).resetFlagAtZero, .ok (), [.exec sql]⟩
    else ⟨s, .error .rollbackFailed, [.exec sql]⟩

/-- `Connection::set_rollback_only`: stores `true` unconditionally — no
closed check and no check that a transaction is active. -/
def ConnState.set_rollback_only (s : ConnState) : ConnState :=
  { s with rollback_only := true }

/-- `Connection::is_rollback_only`. -/
def ConnState.is_rollback_only (s : ConnState) : Bool := s.rollback_only

/-- `Connection::transaction_nesting_level`. -/
def ConnState.transaction_nesting_level (s : ConnState) : Nat := s.nesting_level

/-- `Connection::is_transaction_active`. -/
def ConnState.is_transaction_active (s : ConnState) : Bool :=
  decide (0 < s.nesting_level)

/-- `Connection::is_closed`. -/
def ConnState.is_closed (s : ConnState) : Bool := s.closed

/-- `Connection::ensure_not_closed`, used by query/execute/prepare and
`server_version`. -/
def ConnState.ensure_not_closed (s : ConnState) : Except DbError Unit :=
  if s.closed then .error .connectionClosed else .ok ()

/-- `Connection::is_alive`: `false` without contacting the executor when
closed, otherwise whatever the executor reports (`innerAlive`). -/
def ConnState.is_alive (s : ConnState) (innerAlive : Bool) : Bool :=
  if s.closed then false else innerAlive

/-- The unwind loop of `Connection::close`
(`while nesting_level > 0 { let _ = rollback(); }`), given `fuel`
iterations; `none` means the loop has not finished within `fuel`
iterations.  Each iteration calls the public `rollback`, whose errors are
discarded.  (The executor outcome passed to `rollback` is irrelevant
here: by the time the loop runs, `closed` is already `true`, so
`rollback` returns a connection-closed error without looking at the
executor.) -/
def closeLoop : Nat → ConnState → Option ConnState
  | fuel, s =>
    if s.nesting_level = 0 then some s
    else
      match fuel with
      | 0 => none
      | fuel2 + 1 => closeLoop fuel2 (s.rollback true).state

/-- `Connection::close`: the `closed.swap(true)` makes a second call a
no-op; otherwise the flag is set *first* and then the unwind loop runs.
`none` means the loop did not terminate within `fuel` iterations. -/
def ConnState.close (s : ConnState) (fuel : Nat) : Option (ConnState × Except DbError Unit) :=
  if s.closed then some (s, .ok ())
  else
    (closeLoop fuel { s with closed := true }).map (fun s2 => (s2, .ok ()))

/-- One public state-changing call on a `Connection`, each transaction
call tagged with whether its single executor call succeeds. -/
inductive Op where
  | beginOp (execOk : Bool)
  | commitOp (execOk : Bool)
  | rollbackOp (execOk : Bool)
  | setRollbackOnlyOp
  | closeOp
deriving DecidableEq

/-- The full outcome of one public call.  For `close`, the unwind loop
calls only the public `rollback`, which — the `closed` flag being already
set — returns a connection-closed error without touching the state or the
executor; so the state effect of `close` is exactly setting `closed`
(when the loop does not terminate, this is the state at every point
during it), with no executor calls issued. -/
def ConnState.step (s : ConnState) : Op → OpOutcome
  | .beginOp execOk => s.begin_transaction execOk
  | .commitOp execOk => s.commit execOk
  | .rollbackOp execOk => s.rollback execOk
  | .setRollbackOnlyOp => ⟨s.set_rollback_only, .ok (), []⟩
  | .closeOp => ⟨{ s with closed := true }, .ok (), []⟩

/-- The state after one public call. -/
def ConnState.applyOp (s : ConnState) (op : Op) : ConnState := (s.step op).state

/-- Whether one public call returned `Ok` (a completed call). -/
def ConnState.opOk (s : ConnState) (op : Op) : Bool :=
  match (s.step op).result with
  | .ok _ => true
  | .error _ => false

/-- The state after a sequence of public calls. -/
def ConnState.run (s : ConnState) (ops : List Op) : ConnState :=
  ops.foldl ConnState.applyOp s

/-- Number of calls in the sequence that satisfy `p` and complete
successfully, starting from state `s`. -/
def ConnState.countOk (s : ConnState) (p : Op → Bool) : List Op → Nat
  | [] => 0
  | op :: ops =>
    (if p op && s.opOk op then 1 else 0) + (s.applyOp op).countOk p ops

/-- Recognises `begin_transaction` calls. -/
def Op.isBegin : Op → Bool
  | .beginOp _ => true
  | _ => false

/-- Recognises `commit`/`rollback` calls. -/
def Op.isEnd : Op → Bool
  | .commitOp _ => true
  | .rollbackOp _ => true
  | _ => false

/-- Recognises the three transaction calls. -/
def Op.isTx : Op → Bool
  | .beginOp _ => true
  | .commitOp _ => true
  | .rollbackOp _ => true
  | _ => false

/-- Holds when, along the run of `ops` from `s`, `set_rollback_only` is
only ever invoked while a transaction is active. -/
def ConnState.flagOnlyInTx (s : ConnState) : List Op → Bool
  | [] => true
  | op :: ops =>
    (op != .setRollbackOnlyOp || decide (0 < s.nesting_level))
      && (s.applyOp op).flagOnlyInTx ops

/-- Rust `str::to_uppercase` restricted to the ASCII identifiers it is
applied to: uppercases every character.  (Defined over the character
list so that it reduces computationally.) -/
def upperString (s : String) : String := String.mk (s.data.map Char.toUpper)

/-- The normalized column description produced by the schema manager
(`ColumnInfo` in `src/schema/manager.rs`). -/
structure ColumnInfo where
  name : String
  type_name : String
  nullable : Bool
  default : Option String
  is_primary_key : Bool
  is_auto_increment : Bool
deriving DecidableEq

/-- `SchemaManager::parse_sqlite_column_row`: parses one
`PRAGMA table_info` row `(cid, name, type, notnull, dflt_value, pk, …)`.
Rows with fewer than six cells, or whose name cell is not a string, are
rejected.  Auto-increment is inferred as primary key with declared type
INTEGER (uppercased comparison); primary-key columns are forced
non-nullable. -/
def parse_sqlite_column_row (row : List SqlValue) : Option ColumnInfo :=
  match row with
  | _cid :: nameCell :: typeCell :: notNullCell :: defaultCell :: pkCell :: _ =>
    match nameCell with
    | .string name =>
      let type_name :=
        match typeCell with
        | .string s => s
        | _ => ""
      let not_null :=
        match notNullCell with
        | .i64 v => v != 0
        | .i32 v => v != 0
        | .bool v => v
        | _ => false
      let defaultVal :=
        match defaultCell with
        | .string s => if s.isEmpty then none else some s
        | _ => none
      let is_primary_key :=
        match pkCell with
        | .i64 v => v != 0
        | .i32 v => v != 0
        | .bool v => v
        | _ => false
      let is_auto_increment := is_primary_key && upperString type_name == "INTEGER"
      let nullable := if is_primary_key then false else !not_null
      some ⟨name, type_name, nullable, defaultVal, is_primary_key, is_auto_increment⟩
    | _ => none
  | _ => none

/-- Undoes the doubling of the quote character `q`: greedy left-to-right
replacement of two consecutive `q`s by one, as Rust `str::replace` would
perform it.  This is the spec-side inverse used to state the quoting
round-trip. -/
def undouble (q : Char) : List Char → List Char
  | [] => []
  | [c] => [c]
  | c :: c2 :: rest =>
    if c = q ∧ c2 = q then q :: undouble q rest
    else c :: undouble q (c2 :: rest)

/-! ## Helper lemmas about the connection state machine -/

/-- A successfully completed `begin_transaction` raises the nesting level
by one, a successfully completed `commit`/`rollback` lowers it by one,
and failed or non-transactional calls leave it unchanged. -/
theorem step_level_eq (s : ConnState) (op : Op) :
    (s.applyOp op).nesting_level + (if op.isEnd && s.opOk op then 1 else 0)
      = s.nesting_level + (if op.isBegin && s.opOk op then 1 else 0) := by
  cases op <;>
    simp only [ConnState.applyOp, ConnState.step, ConnState.opOk, Op.isEnd, Op.isBegin,
      ConnState.begin_transaction, ConnState.commit, ConnState.rollback,
      ConnState.resetFlagAtZero, ConnState.set_rollback_only] <;>
    split_ifs <;> simp_all <;> omega

/-- Over any run, the final nesting level plus the number of completed
`commit`/`rollback` calls equals the initial nesting level plus the
number of completed `begin_transaction` calls. -/
theorem run_level_counts (ops : List Op) :
    ∀ s : ConnState,
      (s.run ops).nesting_level + s.countOk Op.isEnd ops
        = s.nesting_level + s.countOk Op.isBegin ops := by
  induction ops with
  | nil => intro s; simp [ConnState.run, ConnState.countOk]
  | cons op ops ih =>
    intro s
    have hstep := step_level_eq s op
    have hrest := ih (s.applyOp op)
    simp only [ConnState.run, List.foldl_cons, ConnState.countOk] at *
    omega

/-! ## C1: nesting level counts completed begin/commit/rollback calls -/

/-- C1.  For every finite sequence of `begin_transaction`, `commit` and
`rollback` calls on a fresh open connection, the transaction nesting
level equals the number of successfully completed `begin_transaction`
calls minus the number of successfully completed `commit`/`rollback`
calls, the latter never exceeds the former (the level never goes
negative), and `is_transaction_active` returns `true` exactly when the
nesting level is positive. -/
theorem tx_nesting_level_counts (ops : List Op) (_h : ∀ op ∈ ops, op.isTx = true) :
    (ConnState.init.run ops).transaction_nesting_level
        = ConnState.init.countOk Op.isBegin ops - ConnState.init.countOk Op.isEnd ops
    ∧ ConnState.init.countOk Op.isEnd ops ≤ ConnState.init.countOk Op.isBegin ops
    ∧ ((ConnState.init.run ops).is_transaction_active = true
        ↔ 0 < (ConnState.init.run ops).transaction_nesting_level) := by
  have h := run_level_counts ops ConnState.init
  have h0 : ConnState.init.nesting_level = 0 := rfl
  rw [h0] at h
  refine ⟨?_, ?_, ?_⟩
  · simp only [ConnState.transaction_nesting_level]
    omega
  · omega
  · simp [ConnState.is_transaction_active, ConnState.transaction_nesting_level]

/-- Witness for C1 at the concrete call sequence
begin, begin, commit (all executor calls succeeding). -/
theorem tx_nesting_level_counts_witness :
    (ConnState.init.run [Op.beginOp true, Op.beginOp true, Op.commitOp true]).transaction_nesting_level
        = ConnState.init.countOk Op.isBegin [Op.beginOp true, Op.beginOp true, Op.commitOp true]
          - ConnState.init.countOk Op.isEnd [Op.beginOp true, Op.beginOp true, Op.commitOp true]
    ∧ ConnState.init.countOk Op.isEnd [Op.beginOp true, Op.beginOp true, Op.commitOp true]
        ≤ ConnState.init.countOk Op.isBegin [Op.beginOp true, Op.beginOp true, Op.commitOp true]
    ∧ ((ConnState.init.run [Op.beginOp true, Op.beginOp true, Op.commitOp true]).is_transaction_active = true
        ↔ 0 < (ConnState.init.run [Op.beginOp true, Op.beginOp true, Op.commitOp true]).transaction_nesting_level) :=
  tx_nesting_level_counts [Op.beginOp true, Op.beginOp true, Op.commitOp true] (by decide)

/-! ## C2: the rollback-only flag outside a transaction -/

/-- Counterexample to C2 as stated: calling `set_rollback_only` on a
fresh connection (nesting level 0) leaves the flag `true` while no
transaction is active — `set_rollback_only` stores `true` without
checking that a transaction is open. -/
theorem rollback_only_outside_tx_counterexample :
    (ConnState.init.run [Op.setRollbackOnlyOp]).nesting_level = 0
    ∧ (ConnState.init.run [Op.setRollbackOnlyOp]).rollback_only = true := by
  exact ⟨rfl, rfl⟩

/-- One public call preserves the invariant "flag is false at level 0",
provided `set_rollback_only` is only invoked while a transaction is
active. -/
theorem step_flag_invariant (s : ConnState) (op : Op)
    (hinv : s.nesting_level = 0 → s.rollback_only = false)
    (hop : op = .setRollbackOnlyOp → 0 < s.nesting_level) :
    (s.applyOp op).nesting_level = 0 → (s.applyOp op).rollback_only = false := by
  cases op <;>
    simp only [ConnState.applyOp, ConnState.step, ConnState.begin_transaction,
      ConnState.commit, ConnState.rollback, ConnState.resetFlagAtZero,
      ConnState.set_rollback_only] <;>
    first
      | (split_ifs <;> simp_all)
      | (intro h0; exact absurd h0 (by have := hop rfl; omega))
      | exact hinv

/-- C2, amended.  In every state reachable from a fresh connection by a
sequence of the public operations in which `set_rollback_only` is only
invoked while a transaction is active, the rollback-only flag is false
whenever the nesting level is 0.  (Unrestricted, the claim fails: see the
counterexample.) -/
theorem rollback_only_invariant_amended (ops : List Op)
    (h : ConnState.init.flagOnlyInTx ops = true) :
    (ConnState.init.run ops).nesting_level = 0
      → (ConnState.init.run ops).rollback_only = false := by
  have main : ∀ (l : List Op) (s : ConnState),
      (s.nesting_level = 0 → s.rollback_only = false) → s.flagOnlyInTx l = true
        → ((s.run l).nesting_level = 0 → (s.run l).rollback_only = false) := by
    intro l
    induction l with
    | nil => intro s hinv _; simpa [ConnState.run] using hinv
    | cons op l2 ih =>
      intro s hinv hgood
      simp only [ConnState.flagOnlyInTx, Bool.and_eq_true, Bool.or_eq_true,
        bne_iff_ne, ne_eq, decide_eq_true_eq] at hgood
      have hop : op = .setRollbackOnlyOp → 0 < s.nesting_level := by
        intro he
        rcases hgood.1 with hne | hpos
        · exact absurd he hne
        · exact hpos
      have hstep := step_flag_invariant s op hinv hop
      have := ih (s.applyOp op) hstep hgood.2
      simpa [ConnState.run] using this
  exact main ops ConnState.init (fun _ => rfl) h

/-- Witness for the amended C2 at the sequence begin, set-rollback-only,
rollback: the flag is set at level 1 only, and the final state has level
0 and flag false. -/
theorem rollback_only_invariant_amended_witness :
    (ConnState.init.run [Op.beginOp true, Op.setRollbackOnlyOp, Op.rollbackOp true]).nesting_level = 0
    ∧ (ConnState.init.run [Op.beginOp true, Op.setRollbackOnlyOp, Op.rollbackOp true]).rollback_only = false :=
  ⟨rfl, rollback_only_invariant_amended
    [Op.beginOp true, Op.setRollbackOnlyOp, Op.rollbackOp true] (by decide) rfl⟩

/-! ## C3: close with an open transaction -/

/-- On a closed connection, `rollback` fails immediately with a
connection-closed error and leaves the state untouched. -/
theorem rollback_on_closed (s : ConnState) (ok : Bool) (h : s.closed = true) :
    s.rollback ok = ⟨s, .error .connectionClosed, []⟩ := by
  simp [ConnState.rollback, h]

/-- Witness for `rollback_on_closed` at a concrete closed state. -/
theorem rollback_on_closed_witness :
    (ConnState.mk 1 false .ReadCommitted true).rollback true
      = ⟨ConnState.mk 1 false .ReadCommitted true, .error .connectionClosed, []⟩ :=
  rollback_on_closed (ConnState.mk 1 false .ReadCommitted true) true rfl

/-- The unwind loop of `close` never terminates once `closed` is set and
the nesting level is positive: the `rollback` it calls fails with a
connection-closed error without decrementing the level. -/
theorem closeLoop_stuck (fuel : Nat) :
    ∀ s : ConnState, s.closed = true → s.nesting_level ≠ 0 →
      closeLoop fuel s = none := by
  induction fuel with
  | zero =>
    intro s hc hn
    simp [closeLoop, hn]
  | succ fuel2 ih =>
    intro s hc hn
    have hr : (s.rollback true).state = s := by
      rw [rollback_on_closed s true hc]
    simp only [closeLoop, hn, if_neg hn]
    rw [hr]
    exact ih s hc hn

/-- C3 fails on the code: `close()` on an open connection holding an
open transaction (nesting level 1) never terminates, for any amount of
fuel given to its unwind loop.  `close` sets the `closed` flag before
the loop, so every forced `rollback()` inside the loop fails with a
connection-closed error and the nesting level never reaches 0 —
contradicting both the claim and the method's own documentation. -/
theorem close_never_terminates_with_open_tx :
    ∀ fuel : Nat, (ConnState.mk 1 false .ReadCommitted false).close fuel = none := by
  intro fuel
  have h := closeLoop_stuck fuel (ConnState.mk 1 false .ReadCommitted true) rfl (by decide)
  simp [ConnState.close, h]

/-! ## C4: the savepoint protocol -/

/-- C4.  On an open connection at nesting level `n`: (1) for `n ≥ 1`,
a successful `begin_transaction` executes `SAVEPOINT <label(n)>` and
moves to level `n + 1`; (2) for `n > 1` (and the transaction not marked
rollback-only), `commit` executes `RELEASE SAVEPOINT <label(n-1)>`,
returns `Ok` and decrements the level by one whether or not that
statement succeeded; (3) for `n > 1`, a successful `rollback` executes
`ROLLBACK TO SAVEPOINT <label(n-1)>` and decrements the level by one,
remaining inside a transaction.  Labels are the deterministic
`savepoint_name` (a fixed prefix plus the depth number). -/
theorem savepoint_protocol (s : ConnState) (n : Nat)
    (hclosed : s.closed = false) (hn : s.nesting_level = n) :
    (1 ≤ n →
      s.begin_transaction true
        = ⟨{ s with nesting_level := n + 1 }, .ok (),
           [.exec ("SAVEPOINT " ++ savepoint_name n)]⟩)
    ∧ (1 < n → s.rollback_only = false → ∀ ok : Bool,
        s.commit ok
          = ⟨{ s with nesting_level := n - 1 }, .ok (),
             [.exec ("RELEASE SAVEPOINT " ++ savepoint_name (n - 1))]⟩)
    ∧ (1 < n →
        (s.rollback true
          = ⟨{ s with nesting_level := n - 1 }, .ok (),
             [.exec ("ROLLBACK TO SAVEPOINT " ++ savepoint_name (n - 1))]⟩)
        ∧ 0 < n - 1) := by
  subst hn
  refine ⟨?_, ?_, ?_⟩
  · intro h1
    have h0 : ¬ s.nesting_level = 0 := by omega
    simp [ConnState.begin_transaction, hclosed, h0]
  · intro h1 hflag ok
    have h0 : ¬ s.nesting_level = 0 := by omega
    have h1' : ¬ s.nesting_level = 1 := by omega
    have hm : ¬ (s.nesting_level - 1 = 0) := by omega
    simp [ConnState.commit, hclosed, h0, hflag, h1', ConnState.resetFlagAtZero, hm]
  · intro h1
    have h0 : ¬ s.nesting_level = 0 := by omega
    have h1' : ¬ s.nesting_level = 1 := by omega
    have hm : ¬ (s.nesting_level - 1 = 0) := by omega
    refine ⟨?_, by omega⟩
    simp [ConnState.rollback, hclosed, h0, h1', ConnState.resetFlagAtZero, hm]

/-- Witness for C4 at the concrete open state with nesting level 2. -/
theorem savepoint_protocol_witness :
    (1 ≤ 2 →
      (ConnState.mk 2 false .ReadCommitted false).begin_transaction true
        = ⟨{ ConnState.mk 2 false .ReadCommitted false with nesting_level := 2 + 1 }, .ok (),
           [.exec ("SAVEPOINT " ++ savepoint_name 2)]⟩)
    ∧ (1 < 2 → (ConnState.mk 2 false .ReadCommitted false).rollback_only = false → ∀ ok : Bool,
        (ConnState.mk 2 false .ReadCommitted false).commit ok
          = ⟨{ ConnState.mk 2 false .ReadCommitted false with nesting_level := 2 - 1 }, .ok (),
             [.exec ("RELEASE SAVEPOINT " ++ savepoint_name (2 - 1))]⟩)
    ∧ (1 < 2 →
        ((ConnState.mk 2 false .ReadCommitted false).rollback true
          = ⟨{ ConnState.mk 2 false .ReadCommitted false with nesting_level := 2 - 1 }, .ok (),
             [.exec ("ROLLBACK TO SAVEPOINT " ++ savepoint_name (2 - 1))]⟩)
        ∧ 0 < 2 - 1) :=
  savepoint_protocol (ConnState.mk 2 false .ReadCommitted false) 2 rfl rfl

/-! ## C5: rollback-only semantics -/

/-- C5.  (1) While the rollback-only flag is set, `commit` on an open
connection fails with the rollback-only error at every positive nesting
depth, without mutating state or contacting the executor; (2) `commit`
and `rollback` at level 0 fail with the no-active-transaction error
without mutating state; (3) the flag persists across any public call
that leaves the nesting level positive; (4) once a `rollback` from
level 1 brings the level back to 0, `is_rollback_only` reports `false`
and a fresh `begin_transaction`/`commit` cycle succeeds. -/
theorem rollback_only_commit_behaviour (s : ConnState) :
    (s.closed = false → s.rollback_only = true → 0 < s.nesting_level → ∀ ok : Bool,
      s.commit ok = ⟨s, .error .rollbackOnlyErr, []⟩)
    ∧ (s.closed = false → s.nesting_level = 0 → ∀ ok : Bool,
        s.commit ok = ⟨s, .error .noActiveTransaction, []⟩
        ∧ s.rollback ok = ⟨s, .error .noActiveTransaction, []⟩)
    ∧ (∀ op : Op, s.rollback_only = true → 0 < (s.applyOp op).nesting_level →
        (s.applyOp op).rollback_only = true)
    ∧ (s.closed = false → s.nesting_level = 1 →
        ((s.rollback true).state.is_rollback_only = false
         ∧ (((s.rollback true).state.begin_transaction true).state.commit true).result
             = .ok ())) := by
  refine ⟨?_, ?_, ?_, ?_⟩
  · intro hclosed hflag hpos ok
    have h0 : ¬ s.nesting_level = 0 := by omega
    simp [ConnState.commit, hclosed, h0, hflag]
  · intro hclosed h0 ok
    constructor
    · simp [ConnState.commit, hclosed, h0]
    · simp [ConnState.rollback, hclosed, h0]
  · intro op hflag hpos
    revert hpos
    cases op <;>
      simp only [ConnState.applyOp, ConnState.step, ConnState.begin_transaction,
        ConnState.commit, ConnState.rollback, ConnState.resetFlagAtZero,
        ConnState.set_rollback_only] <;>
      first
        | (split_ifs <;> simp_all)
        | simp_all
  · intro hclosed h1
    have h0 : ¬ s.nesting_level = 0 := by omega
    have hroll : (s.rollback true).state
        = { s with nesting_level := 0, rollback_only := false } := by
      simp [ConnState.rollback, hclosed, h0, h1, ConnState.resetFlagAtZero]
    rw [hroll]
    constructor
    · rfl
    · simp [ConnState.begin_transaction, ConnState.commit, hclosed,
        ConnState.resetFlagAtZero]

/-- Witness for C5 at the concrete states: level 2 with the flag set for
parts (1) and (3), level 0 for part (2), level 1 for part (4). -/
theorem rollback_only_commit_behaviour_witness :
    ((ConnState.mk 2 true .ReadCommitted false).commit true
        = ⟨ConnState.mk 2 true .ReadCommitted false, .error .rollbackOnlyErr, []⟩)
    ∧ ((ConnState.mk 0 false .ReadCommitted false).commit true
        = ⟨ConnState.mk 0 false .ReadCommitted false, .error .noActiveTransaction, []⟩)
    ∧ (((ConnState.mk 2 true .ReadCommitted false).applyOp (Op.beginOp true)).rollback_only
        = true)
    ∧ ((ConnState.mk 1 true .ReadCommitted false).rollback true).state.is_rollback_only
        = false :=
  ⟨((rollback_only_commit_behaviour (ConnState.mk 2 true .ReadCommitted false)).1
      rfl rfl (by decide) true),
   (((rollback_only_commit_behaviour (ConnState.mk 0 false .ReadCommitted false)).2.1
      rfl rfl true).1),
   ((rollback_only_commit_behaviour (ConnState.mk 2 true .ReadCommitted false)).2.2.1
      (Op.beginOp true) rfl (by decide)),
   (((rollback_only_commit_behaviour (ConnState.mk 1 true .ReadCommitted false)).2.2.2
      rfl rfl).1)⟩

/-! ## C6: byte-exact query builder examples -/

/-- C6.  `to_sql` is a pure function of the builder state, and on the
two example queries it produces exactly the expected byte strings on the
PostgreSQL platform. -/
theorem query_builder_examples_exact :
    (((QueryBuilder.select.columns' ["id", "name"]).fromTable "users").where_eq
        "active" (.bool true)).to_sql .postgres
      = "SELECT \"id\", \"name\" FROM \"users\" WHERE \"active\" = true"
    ∧ ((QueryBuilder.delete.fromTable "users").where_eq "id" (.i64 1)).to_sql .postgres
      = "DELETE FROM \"users\" WHERE \"id\" = 1" :=
  ⟨rfl, rfl⟩

/-! ## C7: INSERT value rows and the RETURNING clause -/

/-- Folding `values` calls over a builder appends the rows, in call
order, to the accumulated `values` field and touches nothing else. -/
theorem values_foldl (rows : List (List SqlValue)) :
    ∀ b : QueryBuilder,
      rows.foldl QueryBuilder.values' b = { b with values := b.values ++ rows } := by
  induction rows with
  | nil => intro b; simp
  | cons r rows ih =>
    intro b
    rw [List.foldl_cons, ih]
    simp [QueryBuilder.values']

/-- C7.  For an INSERT builder over `table` with columns `cols`, one
`values` call per row of `rows` (at least one), and RETURNING columns
`ret`, `to_sql` renders the rows after ` VALUES ` as parenthesized,
comma-joined tuples in call order, and appends the RETURNING clause
exactly when `ret` is nonempty and the platform supports RETURNING
(silently omitting it otherwise). -/
theorem insert_sql_shape (p : DbPlatform) (table : String) (cols ret : List String)
    (rows : List (List SqlValue)) (_hrows : rows ≠ []) :
    ((rows.foldl QueryBuilder.values'
        ((QueryBuilder.insert.into table).insert_columns cols)).returning' ret).to_sql p
      = "INSERT INTO " ++ p.quote_identifier table
        ++ (if cols.isEmpty then ""
            else " (" ++ String.intercalate ", " (cols.map p.quote_identifier) ++ ")")
        ++ " VALUES "
        ++ String.intercalate ", "
            (rows.map (fun row =>
              "(" ++ String.intercalate ", " (row.map SqlValue.display) ++ ")"))
        ++ (if !ret.isEmpty && p.supports_returning
            then " RETURNING " ++ String.intercalate ", " (ret.map p.quote_identifier)
            else "") := by
  rw [values_foldl]
  simp [QueryBuilder.to_sql, QueryBuilder.build_insert, QueryBuilder.returningClause,
    QueryBuilder.insert, QueryBuilder.into, QueryBuilder.insert_columns,
    QueryBuilder.returning', QueryBuilder.select]

/-- Witness for C7: two rows, one column, RETURNING id, on PostgreSQL. -/
theorem insert_sql_shape_witness :
    (([[SqlValue.string "Alice"], [SqlValue.string "Bob"]].foldl QueryBuilder.values'
        ((QueryBuilder.insert.into "users").insert_columns ["name"])).returning'
        ["id"]).to_sql .postgres
      = "INSERT INTO " ++ DbPlatform.postgres.quote_identifier "users"
        ++ (if (["name"] : List String).isEmpty then ""
            else " (" ++ String.intercalate ", "
              ((["name"] : List String).map DbPlatform.postgres.quote_identifier) ++ ")")
        ++ " VALUES "
        ++ String.intercalate ", "
            (([[SqlValue.string "Alice"], [SqlValue.string "Bob"]]).map (fun row =>
              "(" ++ String.intercalate ", " (row.map SqlValue.display) ++ ")"))
        ++ (if !(["id"] : List String).isEmpty && DbPlatform.postgres.supports_returning
            then " RETURNING " ++ String.intercalate ", "
              ((["id"] : List String).map DbPlatform.postgres.quote_identifier)
            else "") :=
  insert_sql_shape .postgres "users" ["name"] ["id"]
    [[SqlValue.string "Alice"], [SqlValue.string "Bob"]] (List.cons_ne_nil _ _)

/-! ## C8: identifier quoting round-trips -/

/-- Undoubling steps over a character different from the quote. -/
theorem undouble_cons_ne (q c : Char) (l : List Char) (h : c ≠ q) :
    undouble q (c :: l) = c :: undouble q l := by
  cases l with
  | nil => simp [undouble]
  | cons d ds => simp [undouble, h]

/-- Undoubling collapses a doubled quote character. -/
theorem undouble_cons_qq (q : Char) (l : List Char) :
    undouble q (q :: q :: l) = q :: undouble q l := by
  simp [undouble]

/-- Undoubling inverts the doubling performed by `replaceDoubled`. -/
theorem undouble_flatMap (q : Char) (l : List Char) :
    undouble q (l.flatMap (fun c => if c = q then [q, q] else [c])) = l := by
  induction l with
  | nil => simp [undouble]
  | cons c cs ih =>
    by_cases hc : c = q
    · subst hc
      rw [List.flatMap_cons, if_pos rfl, List.cons_append, List.cons_append,
        List.nil_append, undouble_cons_qq, ih]
    · rw [List.flatMap_cons, if_neg hc, List.cons_append, List.nil_append,
        undouble_cons_ne q c _ hc, ih]

/-- C8.  For every platform and every identifier name — including names
containing the platform's own quote character — stripping the two
surrounding quote characters from `quote_identifier name` and undoing
the doubling of embedded quote characters reconstructs exactly the
original name. -/
theorem quote_identifier_roundtrip (p : DbPlatform) (name : String) :
    undouble p.quote_identifier_char
        (((p.quote_identifier name).data.drop 1).dropLast)
      = name.data := by
  have hdata : (p.quote_identifier name).data
      = p.quote_identifier_char
          :: ((name.data.flatMap
                (fun c => if c = p.quote_identifier_char
                  then [p.quote_identifier_char, p.quote_identifier_char] else [c]))
              ++ [p.quote_identifier_char]) := by
    simp [DbPlatform.quote_identifier, String.data_append, replaceDoubled,
      String.singleton]
  rw [hdata]
  rw [List.drop_one, List.tail_cons, List.dropLast_concat]
  exact undouble_flatMap _ _

/-! ## C9: the SQLite column parser -/

/-- C9.  For a `PRAGMA table_info` row with at least six cells whose
name and type cells are strings and whose notnull and pk cells are
integers, the parser reports auto-increment exactly when the pk flag is
nonzero and the declared type uppercases to INTEGER, and reports every
primary-key column as non-nullable regardless of the raw NOT NULL
flag. -/
theorem sqlite_column_parser_flags (cid dv : SqlValue) (name ty : String)
    (nn pk : Int) (rest : List SqlValue) (info : ColumnInfo)
    (hparse : parse_sqlite_column_row
        (cid :: .string name :: .string ty :: .i64 nn :: dv :: .i64 pk :: rest)
      = some info) :
    (info.is_auto_increment = true ↔ (pk ≠ 0 ∧ upperString ty = "INTEGER"))
    ∧ (pk ≠ 0 → info.nullable = false) := by
  simp only [parse_sqlite_column_row, Option.some.injEq] at hparse
  subst hparse
  constructor
  · simp [Bool.and_eq_true, bne_iff_ne, beq_iff_eq]
  · intro hpk
    simp [bne_iff_ne, hpk]

/-- Witness for C9 at the row (0, id, integer, 0, NULL, 1). -/
theorem sqlite_column_parser_flags_witness :
    ((ColumnInfo.mk "id" "integer" false none true true).is_auto_increment = true
        ↔ ((1 : Int) ≠ 0 ∧ upperString "integer" = "INTEGER"))
    ∧ ((1 : Int) ≠ 0 → (ColumnInfo.mk "id" "integer" false none true true).nullable = false) :=
  sqlite_column_parser_flags (.i64 0) .null "id" "integer" 0 1 []
    (ColumnInfo.mk "id" "integer" false none true true) (by decide)

/-! ## C10: the connection savepoint SQL is hardcoded -/

/-- The ninth character distinguishes the connection's hardcoded release
statement from the SQLite platform's RELEASE-without-SAVEPOINT syntax. -/
theorem release_sql_ne_sqlite (x : String) :
    "RELEASE SAVEPOINT " ++ x ≠ DbPlatform.release_savepoint_sql .sqlite x := by
  intro h
  have hch := congrArg (fun t => t.data.getD 8 dquoteChar) h
  simp only at hch
  have hL : ("RELEASE SAVEPOINT " ++ x).data.getD 8 dquoteChar = 'S' := by
    rw [String.data_append, List.getD_append]
    · rfl
    · decide
  have hR : (DbPlatform.release_savepoint_sql .sqlite x).data.getD 8 dquoteChar
      = dquoteChar := by
    show ("RELEASE " ++ DbPlatform.quote_identifier .sqlite x).data.getD 8 dquoteChar
      = dquoteChar
    rw [String.data_append, List.getD_append_right]
    · have hq : (DbPlatform.quote_identifier .sqlite x).data
          = dquoteChar :: ((replaceDoubled dquoteChar x).data ++ [dquoteChar]) := by
        simp [DbPlatform.quote_identifier, DbPlatform.quote_identifier_char,
          String.data_append, String.singleton]
      rw [hq]
      rfl
    · decide
  rw [hL, hR] at hch
  exact absurd hch (by decide)

/-- C10.  The connection's savepoint SQL is hardcoded and
platform-independent: on an open connection, `begin_transaction` at
level `n ≥ 1` issues exactly `SAVEPOINT RUSTINE_<n>`, `commit` at level
`n > 1` issues exactly `RELEASE SAVEPOINT RUSTINE_<n-1>`, and `rollback`
at level `n > 1` issues exactly `ROLLBACK TO SAVEPOINT RUSTINE_<n-1>` —
the operations take no platform argument at all — and the release
string differs from the SQLite platform's
`release_savepoint_sql` (RELEASE without the SAVEPOINT keyword) on every
savepoint name, so that syntax is never used by the connection. -/
theorem connection_savepoint_sql_hardcoded (s : ConnState) (n : Nat)
    (hclosed : s.closed = false) (hn : s.nesting_level = n) :
    (1 ≤ n → ∀ ok : Bool,
      (s.begin_transaction ok).cmds = [.exec ("SAVEPOINT RUSTINE_" ++ toString n)])
    ∧ (1 < n → s.rollback_only = false → ∀ ok : Bool,
        (s.commit ok).cmds = [.exec ("RELEASE SAVEPOINT RUSTINE_" ++ toString (n - 1))])
    ∧ (1 < n → ∀ ok : Bool,
        (s.rollback ok).cmds
          = [.exec ("ROLLBACK TO SAVEPOINT RUSTINE_" ++ toString (n - 1))])
    ∧ (∀ m : Nat,
        "RELEASE SAVEPOINT " ++ savepoint_name m
          ≠ DbPlatform.release_savepoint_sql .sqlite (savepoint_name m)) := by
  subst hn
  refine ⟨?_, ?_, ?_, fun m => release_sql_ne_sqlite (savepoint_name m)⟩
  · intro h1 ok
    have h0 : ¬ s.nesting_level = 0 := by omega
    cases ok <;>
      simp [ConnState.begin_transaction, hclosed, h0, savepoint_name,
        ← String.append_assoc]
  · intro h1 hflag ok
    have h0 : ¬ s.nesting_level = 0 := by omega
    have h1' : ¬ s.nesting_level = 1 := by omega
    simp [ConnState.commit, hclosed, h0, hflag, h1', savepoint_name,
      ← String.append_assoc]
  · intro h1 ok
    have h0 : ¬ s.nesting_level = 0 := by omega
    have h1' : ¬ s.nesting_level = 1 := by omega
    cases ok <;>
      simp [ConnState.rollback, hclosed, h0, h1', savepoint_name,
        ← String.append_assoc]

/-- Witness for C10 at the concrete open state with nesting level 2. -/
theorem connection_savepoint_sql_hardcoded_witness :
    (1 ≤ 2 → ∀ ok : Bool,
      ((ConnState.mk 2 false .ReadCommitted false).begin_transaction ok).cmds
        = [.exec ("SAVEPOINT RUSTINE_" ++ toString 2)])
    ∧ (1 < 2 → (ConnState.mk 2 false .ReadCommitted false).rollback_only = false →
        ∀ ok : Bool,
        ((ConnState.mk 2 false .ReadCommitted false).commit ok).cmds
          = [.exec ("RELEASE SAVEPOINT RUSTINE_" ++ toString (2 - 1))])
    ∧ (1 < 2 → ∀ ok : Bool,
        ((ConnState.mk 2 false .ReadCommitted false).rollback ok).cmds
          = [.exec ("ROLLBACK TO SAVEPOINT RUSTINE_" ++ toString (2 - 1))])
    ∧ (∀ m : Nat,
        "RELEASE SAVEPOINT " ++ savepoint_name m
          ≠ DbPlatform.release_savepoint_sql .sqlite (savepoint_name m)) :=
  connection_savepoint_sql_hardcoded (ConnState.mk 2 false .ReadCommitted false) 2 rfl rfl
